import Mathlib

/-!
Verification of the NTLM-over-CONNECT handshake (dialNTLM in ntlm_windows.go).

The function is shallowly embedded as a pure Lean function over an oracle that
supplies the results of every external interaction (the base dial, the SSPI
credential and context calls, the two request writes and the two response
reads).  Alongside its result the embedding returns the list of observable
events it performed (requests written, challenge bytes passed to Update,
handle releases), which lets us state trace properties such as "no second
CONNECT is written" or "each acquired handle is released exactly once".
Go defer semantics are modelled by appending the release events at the exit
of the scope in which the corresponding defer statement was registered,
which also runs on the panicking path, as Go defers do.
-/

namespace ProxyPlease

/-- Alphabet character of standard base64 (models Go encoding/base64 StdEncoding). -/
def b64Char (n : Nat) : Char :=
  if n < 26 then Char.ofNat (65 + n)
  else if n < 52 then Char.ofNat (97 + (n - 26))
  else if n < 62 then Char.ofNat (48 + (n - 52))
  else if n = 62 then '+'
  else '/'

/-- Encode a byte list three bytes at a time, padding the final group with the
padding character, as Go base64.StdEncoding does. -/
def encodeGroups : List Nat → List Char
  | [] => []
  | [a] => [b64Char (a / 4), b64Char (a % 4 * 16), '=', '=']
  | [a, b] => [b64Char (a / 4), b64Char (a % 4 * 16 + b / 16), b64Char (b % 16 * 4), '=']
  | a :: b :: c :: rest =>
    b64Char (a / 4) :: b64Char (a % 4 * 16 + b / 16) ::
      b64Char (b % 16 * 4 + c / 64) :: b64Char (c % 64) :: encodeGroups rest

/-- Go base64.StdEncoding.EncodeToString on a byte list. -/
def base64Encode (bs : List Nat) : String :=
  String.mk (encodeGroups bs)

/-- Value of one base64 alphabet character; none for a character outside the alphabet. -/
def b64Val (c : Char) : Option Nat :=
  if 'A' ≤ c ∧ c ≤ 'Z' then some (c.toNat - 65)
  else if 'a' ≤ c ∧ c ≤ 'z' then some (c.toNat - 97 + 26)
  else if '0' ≤ c ∧ c ≤ '9' then some (c.toNat - 48 + 52)
  else if c = '+' then some 62
  else if c = '/' then some 63
  else none

/-- Decode base64 text four characters at a time with Go StdEncoding padding
rules: the padding character may occur only at the end of the final quantum,
and a final quantum of fewer than four characters is corrupt input. -/
def decodeGroups : List Char → Option (List Nat)
  | [] => some []
  | c1 :: c2 :: c3 :: c4 :: rest =>
    match b64Val c1, b64Val c2 with
    | some v1, some v2 =>
      if c3 = '=' then
        if c4 = '=' ∧ rest = [] then some [v1 * 4 + v2 / 16] else none
      else
        match b64Val c3 with
        | some v3 =>
          if c4 = '=' then
            if rest = [] then some [v1 * 4 + v2 / 16, v2 % 16 * 16 + v3 / 4] else none
          else
            match b64Val c4 with
            | some v4 =>
              match decodeGroups rest with
              | some bs =>
                some ((v1 * 4 + v2 / 16) :: (v2 % 16 * 16 + v3 / 4) :: (v3 % 4 * 64 + v4) :: bs)
              | none => none
            | none => none
        | none => none
    | _, _ => none
  | _ => none

/-- Go base64.StdEncoding.DecodeString: carriage returns and newlines are
ignored, everything else is decoded in four-character quanta; none models a
base64.CorruptInputError. -/
def base64Decode (s : String) : Option (List Nat) :=
  decodeGroups (s.toList.filter fun c => !(c == '\r' || c == '\n'))

/-- Go net/http.StatusText: the standard reason phrase of an HTTP status code,
and the empty string for an unknown code. -/
def statusText : Nat → String
  | 100 => "Continue"
  | 101 => "Switching Protocols"
  | 102 => "Processing"
  | 103 => "Early Hints"
  | 200 => "OK"
  | 201 => "Created"
  | 202 => "Accepted"
  | 203 => "Non-Authoritative Information"
  | 204 => "No Content"
  | 205 => "Reset Content"
  | 206 => "Partial Content"
  | 207 => "Multi-Status"
  | 208 => "Already Reported"
  | 226 => "IM Used"
  | 300 => "Multiple Choices"
  | 301 => "Moved Permanently"
  | 302 => "Found"
  | 303 => "See Other"
  | 304 => "Not Modified"
  | 305 => "Use Proxy"
  | 307 => "Temporary Redirect"
  | 308 => "Permanent Redirect"
  | 400 => "Bad Request"
  | 401 => "Unauthorized"
  | 402 => "Payment Required"
  | 403 => "Forbidden"
  | 404 => "Not Found"
  | 405 => "Method Not Allowed"
  | 406 => "Not Acceptable"
  | 407 => "Proxy Authentication Required"
  | 408 => "Request Timeout"
  | 409 => "Conflict"
  | 410 => "Gone"
  | 411 => "Length Required"
  | 412 => "Precondition Failed"
  | 413 => "Request Entity Too Large"
  | 414 => "Request URI Too Long"
  | 415 => "Unsupported Media Type"
  | 416 => "Requested Range Not Satisfiable"
  | 417 => "Expectation Failed"
  | 418 => "I\x27m a teapot"
  | 421 => "Misdirected Request"
  | 422 => "Unprocessable Entity"
  | 423 => "Locked"
  | 424 => "Failed Dependency"
  | 425 => "Too Early"
  | 426 => "Upgrade Required"
  | 428 => "Precondition Required"
  | 429 => "Too Many Requests"
  | 431 => "Request Header Fields Too Large"
  | 451 => "Unavailable For Legal Reasons"
  | 500 => "Internal Server Error"
  | 501 => "Not Implemented"
  | 502 => "Bad Gateway"
  | 503 => "Service Unavailable"
  | 504 => "Gateway Timeout"
  | 505 => "HTTP Version Not Supported"
  | 506 => "Variant Also Negotiates"
  | 507 => "Insufficient Storage"
  | 508 => "Loop Detected"
  | 510 => "Not Extended"
  | 511 => "Network Authentication Required"
  | _ => ""

/-- Go strings.HasPrefix on the character sequence of the strings.  For the
all-ASCII pattern used in the source this coincides with Go byte-level
comparison. -/
def hasPrefixGo (s pre : String) : Bool :=
  pre.toList.isPrefixOf s.toList

/-- The contents of a non-nil Go http.Header map: a finite map from header
name to list of values, absence modelled by none. -/
def HeaderMap : Type := String → Option (List String)

/-- A Go http.Header value; none models a nil map. -/
def Header : Type := Option HeaderMap

/-- Go http.Header.Set on the underlying non-nil map: replaces the values
stored under the key by the single given value.  The source only ever calls
Set with the canonical-form keys Proxy-Authorization and Proxy-Connection,
for which Go textproto key canonicalization is the identity. -/
def HeaderMap.set (m : HeaderMap) (k v : String) : HeaderMap :=
  fun q => if q = k then some [v] else m q

/-- Go http.Header.Clone: a deep copy of the map, and nil for a nil map.
In the pure model the copy is the value itself. -/
def Header.clone (h : Header) : Header := h

/-- Set on a http.Header known to be non-nil (used for the second request,
whose header was built in this function and is never nil); on a nil map Go
would panic, which the caller in this development handles separately. -/
def Header.set (h : Header) (k v : String) : Header :=
  match h with
  | none => none
  | some m => some (m.set k v)

/-- Map lookup on a http.Header; a nil map holds no keys. -/
def Header.get (h : Header) (k : String) : Option (List String) :=
  match h with
  | none => none
  | some m => m k

/-- Modelled from the spec: the proxy descriptor (the Proxy value of the
configuration surface, whose struct definition lives outside the given source
file).  It carries the optional domain/username/password credential triple and
the configured extra header set. -/
structure Proxy where
  domain : String
  username : String
  password : String
  headers : Header

/-- The http.Request fields dialNTLM builds and serializes: method, the
target address stored as the opaque part of the URL, the Host field, the
header map, the optional body and the optional GetBody capability that
re-obtains a fresh body.  E is the error type of external operations and
B the type of body values. -/
structure Request (E B : Type) where
  method : String
  url : String
  host : String
  header : Header
  body : Option B
  getBody : Option (Unit → Except E B)

/-- The part of a parsed http.Response dialNTLM inspects: the status code and
the header map (with presence, as a Go map lookup reports it). -/
structure Response where
  statusCode : Nat
  header : String → Option (List String)

/-- An error returned by dialNTLM: either an error of an external operation
passed through unchanged, or a message created with errors.New, or the
base64.CorruptInputError produced by DecodeString. -/
inductive DialError (E : Type) where
  | ext (e : E)
  | str (s : String)
  | corruptInput
deriving DecidableEq

/-- The outcome of a call: a normal return of the connection together with an
optional error, or a Go runtime panic with the given message. -/
inductive Outcome (Conn E : Type) where
  | ret (conn : Conn) (err : Option (DialError E))
  | panicked (msg : String)
deriving DecidableEq

/-- Observable events of one call, in order: which credential acquisition was
invoked, release of the credential and of the security context (from the
deferred calls), each request serialized to the connection, and the challenge
bytes passed to SecurityContext.Update. -/
inductive Event (E B : Type) where
  | acquireUser (domain username password : String)
  | acquireCurrent
  | releaseCred
  | releaseCtx
  | write (r : Request E B)
  | update (challenge : List Nat)

/-- Results of the external operations dialNTLM performs, in program order.
Each operation is consulted at most once per call, so a fixed result per
operation fully determines one execution. -/
structure Oracle (Conn E : Type) where
  dialConn : Conn
  dialErr : Option E
  acquireUser : Option E
  acquireCurrent : Option E
  newClientContext : Except E (List Nat)
  write1 : Option E
  read1 : Except E Response
  close1 : Option E
  update : Except E (List Nat)
  write2 : Option E
  read2 : Except E Response

/-- The outcome of credential acquisition: with a fully supplied
domain/username/password triple the code calls AcquireUserCredentials,
otherwise AcquireCurrentUserCredentials. -/
def credResult {Conn E : Type} (p : Proxy) (o : Oracle Conn E) : Option E :=
  if p.domain ≠ "" ∧ p.username ≠ "" ∧ p.password ≠ "" then o.acquireUser
  else o.acquireCurrent

/-- The acquisition event matching credResult. -/
def acquireEvent (E B : Type) (p : Proxy) : Event E B :=
  if p.domain ≠ "" ∧ p.username ≠ "" ∧ p.password ≠ "" then
    Event.acquireUser p.domain p.username p.password
  else Event.acquireCurrent

/-- The first CONNECT request (lines 49-57): a clone of the configured
headers with Proxy-Authorization set to the base64 Negotiate token under the
NTLM scheme and Proxy-Connection set to Keep-Alive, method CONNECT, the
target address as opaque URL and host, and no body. -/
def connectRequest (E B : Type) (addr : String) (m : HeaderMap) (negotiate : List Nat) :
    Request E B :=
  { method := "CONNECT"
    url := addr
    host := addr
    header := some ((m.set "Proxy-Authorization"
      ("NTLM " ++ base64Encode negotiate)).set "Proxy-Connection" "Keep-Alive")
    body := none
    getBody := none }

/-- Lines 100-105: if the request has a GetBody capability, re-obtain a fresh
body and install it on the request; a failure is returned as is. -/
def rewindRequest {E B : Type} (r : Request E B) : Except E (Request E B) :=
  match r.getBody with
  | none => Except.ok r
  | some f =>
    match f () with
    | Except.error e => Except.error e
    | Except.ok b => Except.ok { r with body := some b }

/-- Lines 49-127 of dialNTLM: everything after the security context has been
created, i.e. the scope whose exits run the deferred secctx.Release (appended
by afterCred).  Cloning a nil header map yields nil and the first Set on it
panics, as in Go. -/
def afterCtx {Conn E B : Type} (p : Proxy) (addr : String) (conn : Conn)
    (negotiate : List Nat) (o : Oracle Conn E) :
    Outcome Conn E × List (Event E B) :=
  match p.headers.clone with
  | none => (Outcome.panicked "assignment to entry in nil map", [])
  | some m =>
    let connect := connectRequest E B addr m negotiate
    match o.write1 with
    | some e => (Outcome.ret conn (some (DialError.ext e)), [Event.write connect])
    | none =>
    match o.read1 with
    | Except.error e => (Outcome.ret conn (some (DialError.ext e)), [Event.write connect])
    | Except.ok resp =>
    match o.close1 with
    | some e => (Outcome.ret conn (some (DialError.ext e)), [Event.write connect])
    | none =>
    if resp.statusCode ≠ 407 then
      (Outcome.ret conn (some (DialError.str "Unexpected HTTP status code")),
        [Event.write connect])
    else
    match resp.header "Proxy-Authenticate" with
    | none =>
      (Outcome.ret conn (some (DialError.str "did not receive a challenge from the server")),
        [Event.write connect])
    | some challengeHeaders =>
    if challengeHeaders.length ≠ 1 then
      (Outcome.ret conn (some (DialError.str "received malformed challenge from the server")),
        [Event.write connect])
    else
    let c0 := challengeHeaders.headD ""
    if c0.length < 6 ∨ ¬ (hasPrefixGo c0 "NTLM " = true) then
      (Outcome.ret conn (some (DialError.str "received malformed challenge from the server")),
        [Event.write connect])
    else
    match base64Decode (c0.drop 5) with
    | none => (Outcome.ret conn (some DialError.corruptInput), [Event.write connect])
    | some challenge =>
    match o.update with
    | Except.error e =>
      (Outcome.ret conn (some (DialError.ext e)),
        [Event.write connect, Event.update challenge])
    | Except.ok authenticate =>
    match rewindRequest connect with
    | Except.error e =>
      (Outcome.ret conn (some (DialError.ext e)),
        [Event.write connect, Event.update challenge])
    | Except.ok connect2 =>
    let connect3 := { connect2 with
      header := connect2.header.set "Proxy-Authorization"
        ("NTLM " ++ base64Encode authenticate) }
    match o.write2 with
    | some e =>
      (Outcome.ret conn (some (DialError.ext e)),
        [Event.write connect, Event.update challenge, Event.write connect3])
    | none =>
    match o.read2 with
    | Except.error e =>
      (Outcome.ret conn (some (DialError.ext e)),
        [Event.write connect, Event.update challenge, Event.write connect3])
    | Except.ok resp2 =>
    if resp2.statusCode = 200 then
      (Outcome.ret conn none,
        [Event.write connect, Event.update challenge, Event.write connect3])
    else
      (Outcome.ret conn (some (DialError.str (statusText resp2.statusCode))),
        [Event.write connect, Event.update challenge, Event.write connect3])

/-- Lines 42-127: the scope whose exits run the deferred cred.Release
(appended by dialNTLM); creates the client security context and obtains the
Negotiate token, then runs afterCtx and appends the deferred secctx.Release. -/
def afterCred {Conn E B : Type} (p : Proxy) (addr : String) (conn : Conn)
    (o : Oracle Conn E) : Outcome Conn E × List (Event E B) :=
  match o.newClientContext with
  | Except.error e => (Outcome.ret conn (some (DialError.ext e)), [])
  | Except.ok negotiate =>
    let r := afterCtx p addr conn negotiate o
    (r.1, r.2 ++ [Event.releaseCtx])

/-- The whole of dialNTLM: dial, acquire credentials (explicit when the full
triple is supplied, otherwise current user), then run the rest of the
handshake, appending the deferred cred.Release at scope exit. -/
def dialNTLM {Conn E B : Type} (p : Proxy) (addr : String) (o : Oracle Conn E) :
    Outcome Conn E × List (Event E B) :=
  match o.dialErr with
  | some e => (Outcome.ret o.dialConn (some (DialError.ext e)), [])
  | none =>
    match credResult p o with
    | some e => (Outcome.ret o.dialConn (some (DialError.ext e)), [acquireEvent E B p])
    | none =>
      let r := afterCred p addr o.dialConn o
      (r.1, acquireEvent E B p :: r.2 ++ [Event.releaseCred])

/-- The requests serialized to the connection during one call, in order. -/
def writes {E B : Type} (tr : List (Event E B)) : List (Request E B) :=
  tr.filterMap fun e =>
    match e with
    | Event.write r => some r
    | _ => none

/-- The arguments passed to SecurityContext.Update during one call, in order. -/
def updates {E B : Type} (tr : List (Event E B)) : List (List Nat) :=
  tr.filterMap fun e =>
    match e with
    | Event.update c => some c
    | _ => none

/-- How many times the credential handle was released. -/
def countReleaseCred {E B : Type} (tr : List (Event E B)) : Nat :=
  (tr.filter fun e =>
    match e with
    | Event.releaseCred => true
    | _ => false).length

/-- How many times the security context handle was released. -/
def countReleaseCtx {E B : Type} (tr : List (Event E B)) : Nat :=
  (tr.filter fun e =>
    match e with
    | Event.releaseCtx => true
    | _ => false).length

/-! Concrete fixtures used by witnesses and counterexamples. -/

/-- A configured header set with one custom header. -/
def wHeaders : HeaderMap := fun k => if k = "X-Custom" then some ["v1"] else none

/-- A proxy configuration with a full credential triple and one custom header. -/
def wProxy : Proxy :=
  { domain := "dom", username := "user", password := "pw", headers := some wHeaders }

/-- A well-formed 407 challenge response carrying one NTLM challenge value. -/
def wResp1 : Response :=
  { statusCode := 407
    header := fun k => if k = "Proxy-Authenticate" then some ["NTLM TWFu"] else none }

/-- A 200 final response. -/
def wResp2 : Response := { statusCode := 200, header := fun _ => none }

/-- An oracle for a fully successful handshake. -/
def wOracle : Oracle Nat String :=
  { dialConn := 7
    dialErr := none
    acquireUser := none
    acquireCurrent := none
    newClientContext := Except.ok [1, 2, 3]
    write1 := none
    read1 := Except.ok wResp1
    close1 := none
    update := Except.ok [9, 8]
    write2 := none
    read2 := Except.ok wResp2 }

/-- C1: in a handshake in which both CONNECT requests are written and both
responses are read successfully, a second response with status 200 makes
dialNTLM return the dialed connection with no error, and any other second
status makes it return the connection with an error whose text is the
standard reason phrase of that status code. -/
theorem dialNTLM_final_status {Conn E B : Type} (p : Proxy) (addr : String)
    (o : Oracle Conn E) (m : HeaderMap) (ng auth ch : List Nat) (r1 r2 : Response)
    (v : String)
    (hd : o.dialErr = none)
    (hc : credResult p o = none)
    (hctx : o.newClientContext = Except.ok ng)
    (hh : p.headers = some m)
    (hw1 : o.write1 = none)
    (hr1 : o.read1 = Except.ok r1)
    (hcl : o.close1 = none)
    (h407 : r1.statusCode = 407)
    (hpa : r1.header "Proxy-Authenticate" = some [v])
    (hlen : 6 ≤ v.length)
    (hsw : hasPrefixGo v "NTLM " = true)
    (hdec : base64Decode (v.drop 5) = some ch)
    (hup : o.update = Except.ok auth)
    (hw2 : o.write2 = none)
    (hr2 : o.read2 = Except.ok r2) :
    (dialNTLM p addr o : Outcome Conn E × List (Event E B)).1 =
      if r2.statusCode = 200 then Outcome.ret o.dialConn none
      else Outcome.ret o.dialConn (some (DialError.str (statusText r2.statusCode))) := by
  by_cases h200 : r2.statusCode = 200 <;>
    simp [dialNTLM, afterCred, afterCtx, Header.clone, rewindRequest, connectRequest,
      hd, hc, hctx, hh, hw1, hr1, hcl, h407, hpa, hdec, hup, hw2, hr2, hsw,
      Nat.not_lt.mpr hlen, h200]

/-- Witness for C1 at a concrete successful handshake. -/
theorem dialNTLM_final_status_witness :
    wOracle.dialErr = none ∧ credResult wProxy wOracle = none ∧
      wResp2.statusCode = 200 ∧
      (dialNTLM wProxy "example.com:443" wOracle :
        Outcome Nat String × List (Event String Unit)).1 = Outcome.ret 7 none := by
  refine ⟨rfl, rfl, rfl, ?_⟩
  have h := dialNTLM_final_status (B := Unit) wProxy "example.com:443" wOracle wHeaders
    [1, 2, 3] [9, 8] [77, 97, 110] wResp1 wResp2 "NTLM TWFu"
    rfl rfl rfl rfl rfl rfl rfl (by decide) (by decide) (by decide) (by decide) (by decide)
    rfl rfl rfl
  simpa [wOracle, wResp2] using h

section TraceLemmas

variable {E B : Type} (tr tra trb : List (Event E B)) (r : Request E B)
variable (c : List Nat) (p : Proxy)

@[simp] theorem writes_nil : writes ([] : List (Event E B)) = [] := rfl

@[simp] theorem writes_cons_write : writes (Event.write r :: tr) = r :: writes tr := rfl

@[simp] theorem writes_cons_update : writes (Event.update c :: tr) = writes tr := rfl

@[simp] theorem writes_cons_releaseCtx : writes (Event.releaseCtx :: tr) = writes tr := rfl

@[simp] theorem writes_cons_releaseCred : writes (Event.releaseCred :: tr) = writes tr := rfl

@[simp] theorem writes_cons_acquireEvent :
    writes (acquireEvent E B p :: tr) = writes tr := by
  unfold writes acquireEvent
  split <;> rfl

@[simp] theorem writes_append : writes (tra ++ trb) = writes tra ++ writes trb :=
  List.filterMap_append _ _ _

@[simp] theorem updates_nil : updates ([] : List (Event E B)) = [] := rfl

@[simp] theorem updates_cons_write : updates (Event.write r :: tr) = updates tr := rfl

@[simp] theorem updates_cons_update : updates (Event.update c :: tr) = c :: updates tr := rfl

@[simp] theorem updates_cons_releaseCtx : updates (Event.releaseCtx :: tr) = updates tr := rfl

@[simp] theorem updates_cons_releaseCred : updates (Event.releaseCred :: tr) = updates tr := rfl

@[simp] theorem updates_cons_acquireEvent :
    updates (acquireEvent E B p :: tr) = updates tr := by
  unfold updates acquireEvent
  split <;> rfl

@[simp] theorem updates_append : updates (tra ++ trb) = updates tra ++ updates trb :=
  List.filterMap_append _ _ _

@[simp] theorem countReleaseCred_nil : countReleaseCred ([] : List (Event E B)) = 0 := rfl

@[simp] theorem countReleaseCred_cons_write :
    countReleaseCred (Event.write r :: tr) = countReleaseCred tr := rfl

@[simp] theorem countReleaseCred_cons_update :
    countReleaseCred (Event.update c :: tr) = countReleaseCred tr := rfl

@[simp] theorem countReleaseCred_cons_releaseCtx :
    countReleaseCred (Event.releaseCtx :: tr) = countReleaseCred tr := rfl

@[simp] theorem countReleaseCred_cons_releaseCred :
    countReleaseCred (Event.releaseCred :: tr) = countReleaseCred tr + 1 := rfl

@[simp] theorem countReleaseCred_cons_acquireEvent :
    countReleaseCred (acquireEvent E B p :: tr) = countReleaseCred tr := by
  unfold countReleaseCred acquireEvent
  split <;> rfl

@[simp] theorem countReleaseCred_append :
    countReleaseCred (tra ++ trb) = countReleaseCred tra + countReleaseCred trb := by
  unfold countReleaseCred
  rw [List.filter_append, List.length_append]

@[simp] theorem countReleaseCtx_nil : countReleaseCtx ([] : List (Event E B)) = 0 := rfl

@[simp] theorem countReleaseCtx_cons_write :
    countReleaseCtx (Event.write r :: tr) = countReleaseCtx tr := rfl

@[simp] theorem countReleaseCtx_cons_update :
    countReleaseCtx (Event.update c :: tr) = countReleaseCtx tr := rfl

@[simp] theorem countReleaseCtx_cons_releaseCtx :
    countReleaseCtx (Event.releaseCtx :: tr) = countReleaseCtx tr + 1 := rfl

@[simp] theorem countReleaseCtx_cons_releaseCred :
    countReleaseCtx (Event.releaseCred :: tr) = countReleaseCtx tr := rfl

@[simp] theorem countReleaseCtx_cons_acquireEvent :
    countReleaseCtx (acquireEvent E B p :: tr) = countReleaseCtx tr := by
  unfold countReleaseCtx acquireEvent
  split <;> rfl

@[simp] theorem countReleaseCtx_append :
    countReleaseCtx (tra ++ trb) = countReleaseCtx tra + countReleaseCtx trb := by
  unfold countReleaseCtx
  rw [List.filter_append, List.length_append]

end TraceLemmas

/-- An oracle whose first response has status 500 and whose body Close fails:
the close error preempts the status check. -/
def oCloseFail : Oracle Nat String :=
  { wOracle with
    read1 := Except.ok { statusCode := 500, header := fun _ => none }
    close1 := some "close failed" }

/-- Counterexample to C2 as stated: with a first response of status 500 whose
body Close returns an error, dialNTLM returns that close error, not the
message "Unexpected HTTP status code". -/
theorem dialNTLM_unexpected_status_counterexample :
    oCloseFail.read1.toOption.map Response.statusCode = some 500 ∧
    (dialNTLM wProxy "t" oCloseFail : Outcome Nat String × List (Event String Unit)).1 =
      Outcome.ret 7 (some (DialError.ext "close failed")) ∧
    (dialNTLM wProxy "t" oCloseFail : Outcome Nat String × List (Event String Unit)).1 ≠
      Outcome.ret 7 (some (DialError.str "Unexpected HTTP status code")) := by
  refine ⟨rfl, by decide, by decide⟩

/-- C2 amended: for every first response that is read successfully, whose
body Close returns no error, and whose status code is not 407, dialNTLM
fails with the error message "Unexpected HTTP status code", returns the
connection, and never writes a second CONNECT request. -/
theorem dialNTLM_unexpected_status {Conn E B : Type} (p : Proxy) (addr : String)
    (o : Oracle Conn E) (m : HeaderMap) (ng : List Nat) (r1 : Response)
    (hd : o.dialErr = none)
    (hc : credResult p o = none)
    (hctx : o.newClientContext = Except.ok ng)
    (hh : p.headers = some m)
    (hw1 : o.write1 = none)
    (hr1 : o.read1 = Except.ok r1)
    (hcl : o.close1 = none)
    (hne : r1.statusCode ≠ 407) :
    (dialNTLM p addr o : Outcome Conn E × List (Event E B)).1 =
      Outcome.ret o.dialConn (some (DialError.str "Unexpected HTTP status code")) ∧
    (writes (dialNTLM p addr o : Outcome Conn E × List (Event E B)).2).length = 1 := by
  simp [dialNTLM, afterCred, afterCtx, Header.clone, hd, hc, hctx, hh, hw1, hr1, hcl, hne]

/-- An oracle whose first response has status 200 and whose body closes
without error. -/
def oNot407 : Oracle Nat String :=
  { wOracle with read1 := Except.ok { statusCode := 200, header := fun _ => none } }

/-- Witness for the amended C2 at a concrete first response of status 200. -/
theorem dialNTLM_unexpected_status_witness :
    oNot407.read1.toOption.map Response.statusCode = some 200 ∧
    (dialNTLM wProxy "t" oNot407 : Outcome Nat String × List (Event String Unit)).1 =
      Outcome.ret 7 (some (DialError.str "Unexpected HTTP status code")) ∧
    (writes (dialNTLM wProxy "t" oNot407 :
      Outcome Nat String × List (Event String Unit)).2).length = 1 := by
  have h := dialNTLM_unexpected_status (B := Unit) wProxy "t" oNot407 wHeaders
    [1, 2, 3] { statusCode := 200, header := fun _ => none }
    rfl rfl rfl rfl rfl rfl rfl (by decide)
  exact ⟨rfl, h.1, h.2⟩

/-- An oracle whose first response has status 407 but no Proxy-Authenticate
header, and whose body Close fails: the close error preempts the challenge
extraction. -/
def oCloseFail407 : Oracle Nat String :=
  { wOracle with
    read1 := Except.ok { statusCode := 407, header := fun _ => none }
    close1 := some "close failed too" }

/-- Counterexample to C3 as stated: with a 407 first response that carries no
Proxy-Authenticate header but whose body Close returns an error, dialNTLM
returns the close error, not a missing/malformed-challenge error. -/
theorem dialNTLM_malformed_challenge_counterexample :
    oCloseFail407.read1.toOption.map Response.statusCode = some 407 ∧
    (dialNTLM wProxy "t" oCloseFail407 : Outcome Nat String × List (Event String Unit)).1 =
      Outcome.ret 7 (some (DialError.ext "close failed too")) ∧
    (dialNTLM wProxy "t" oCloseFail407 : Outcome Nat String × List (Event String Unit)).1 ≠
      Outcome.ret 7 (some (DialError.str "did not receive a challenge from the server")) ∧
    (dialNTLM wProxy "t" oCloseFail407 : Outcome Nat String × List (Event String Unit)).1 ≠
      Outcome.ret 7 (some (DialError.str "received malformed challenge from the server")) := by
  refine ⟨rfl, by decide, by decide, by decide⟩

/-- C3 amended: for every 407 first response that is read successfully and
whose body Close returns no error, if the Proxy-Authenticate header is
absent, or present with a number of values different from one, or its single
value is shorter than 6 characters or does not begin with the literal
"NTLM " scheme, then dialNTLM fails with a missing/malformed-challenge error
and never writes a second CONNECT request. -/
theorem dialNTLM_malformed_challenge {Conn E B : Type} (p : Proxy) (addr : String)
    (o : Oracle Conn E) (m : HeaderMap) (ng : List Nat) (r1 : Response)
    (hd : o.dialErr = none)
    (hc : credResult p o = none)
    (hctx : o.newClientContext = Except.ok ng)
    (hh : p.headers = some m)
    (hw1 : o.write1 = none)
    (hr1 : o.read1 = Except.ok r1)
    (hcl : o.close1 = none)
    (h407 : r1.statusCode = 407)
    (hmal : r1.header "Proxy-Authenticate" = none ∨
      (∃ vs, r1.header "Proxy-Authenticate" = some vs ∧ vs.length ≠ 1) ∨
      (∃ v, r1.header "Proxy-Authenticate" = some [v] ∧
        (v.length < 6 ∨ hasPrefixGo v "NTLM " = false))) :
    ((dialNTLM p addr o : Outcome Conn E × List (Event E B)).1 =
        Outcome.ret o.dialConn
          (some (DialError.str "did not receive a challenge from the server")) ∨
      (dialNTLM p addr o : Outcome Conn E × List (Event E B)).1 =
        Outcome.ret o.dialConn
          (some (DialError.str "received malformed challenge from the server"))) ∧
    (writes (dialNTLM p addr o : Outcome Conn E × List (Event E B)).2).length = 1 := by
  rcases hmal with hpa | ⟨vs, hpa, hvs⟩ | ⟨v, hpa, hcond⟩
  · simp [dialNTLM, afterCred, afterCtx, Header.clone, hd, hc, hctx, hh, hw1, hr1, hcl,
      h407, hpa]
  · simp [dialNTLM, afterCred, afterCtx, Header.clone, hd, hc, hctx, hh, hw1, hr1, hcl,
      h407, hpa, hvs]
  · rcases hcond with hlt | hpf
    · simp [dialNTLM, afterCred, afterCtx, Header.clone, hd, hc, hctx, hh, hw1, hr1, hcl,
        h407, hpa, hlt]
    · simp [dialNTLM, afterCred, afterCtx, Header.clone, hd, hc, hctx, hh, hw1, hr1, hcl,
        h407, hpa, hpf]

/-- An oracle whose 407 first response carries no Proxy-Authenticate header
and whose body closes without error. -/
def oNoChallenge : Oracle Nat String :=
  { wOracle with read1 := Except.ok { statusCode := 407, header := fun _ => none } }

/-- Witness for the amended C3 at a concrete 407 response with no challenge. -/
theorem dialNTLM_malformed_challenge_witness :
    oNoChallenge.close1 = none ∧
    ((dialNTLM wProxy "t" oNoChallenge : Outcome Nat String × List (Event String Unit)).1 =
        Outcome.ret 7 (some (DialError.str "did not receive a challenge from the server")) ∨
      (dialNTLM wProxy "t" oNoChallenge : Outcome Nat String × List (Event String Unit)).1 =
        Outcome.ret 7 (some (DialError.str "received malformed challenge from the server"))) ∧
    (writes (dialNTLM wProxy "t" oNoChallenge :
      Outcome Nat String × List (Event String Unit)).2).length = 1 := by
  have h := dialNTLM_malformed_challenge (B := Unit) wProxy "t" oNoChallenge wHeaders
    [1, 2, 3] { statusCode := 407, header := fun _ => none }
    rfl rfl rfl rfl rfl rfl rfl rfl (Or.inl rfl)
  exact ⟨rfl, h.1, h.2⟩

/-- On every path of afterCtx with a non-nil header map, the first event of
the trace is the serialization of the first CONNECT request. -/
theorem afterCtx_trace_head {Conn E B : Type} (p : Proxy) (addr : String) (conn : Conn)
    (ng : List Nat) (o : Oracle Conn E) (m : HeaderMap) (hh : p.headers = some m) :
    ∃ rest, (afterCtx p addr conn ng o : Outcome Conn E × List (Event E B)).2 =
      Event.write (connectRequest E B addr m ng) :: rest := by
  simp only [afterCtx, Header.clone, hh]
  repeat' split
  all_goals exact ⟨_, rfl⟩

/-- C4: in every handshake that reaches the first send, the first CONNECT
request written uses method CONNECT with the target address as opaque URL and
host, carries Proxy-Authorization equal to the NTLM scheme followed by the
standard base64 encoding of the Negotiate token and Proxy-Connection equal to
Keep-Alive, and preserves every configured header other than the two it
overrides. -/
theorem dialNTLM_first_request {Conn E B : Type} (p : Proxy) (addr : String)
    (o : Oracle Conn E) (m : HeaderMap) (ng : List Nat)
    (hd : o.dialErr = none)
    (hc : credResult p o = none)
    (hctx : o.newClientContext = Except.ok ng)
    (hh : p.headers = some m) :
    (writes (dialNTLM p addr o : Outcome Conn E × List (Event E B)).2).head? =
      some (connectRequest E B addr m ng) ∧
    (connectRequest E B addr m ng).method = "CONNECT" ∧
    (connectRequest E B addr m ng).url = addr ∧
    (connectRequest E B addr m ng).host = addr ∧
    (connectRequest E B addr m ng).header.get "Proxy-Authorization" =
      some ["NTLM " ++ base64Encode ng] ∧
    (connectRequest E B addr m ng).header.get "Proxy-Connection" = some ["Keep-Alive"] ∧
    ∀ k, k ≠ "Proxy-Authorization" → k ≠ "Proxy-Connection" →
      (connectRequest E B addr m ng).header.get k = m k := by
  obtain ⟨rest, hrest⟩ := afterCtx_trace_head (B := B) p addr o.dialConn ng o m hh
  refine ⟨?_, rfl, rfl, rfl, ?_, ?_, ?_⟩
  · simp [dialNTLM, afterCred, hd, hc, hctx, hrest]
  · simp [connectRequest, Header.get, HeaderMap.set]
  · simp [connectRequest, Header.get, HeaderMap.set]
  · intro k hk1 hk2
    simp [connectRequest, Header.get, HeaderMap.set, hk1, hk2]

/-- Witness for C4 at a concrete handshake: the first request written is the
constructed CONNECT request, whose Proxy-Authorization carries the base64
Negotiate token and whose custom configured header is preserved. -/
theorem dialNTLM_first_request_witness :
    wProxy.headers = some wHeaders ∧
    (writes ((dialNTLM wProxy "h:443" wOracle :
        Outcome Nat String × List (Event String Unit)).2)).head? =
      some (connectRequest String Unit "h:443" wHeaders [1, 2, 3]) ∧
    (connectRequest String Unit "h:443" wHeaders [1, 2, 3]).header.get
      "Proxy-Authorization" = some ["NTLM AQID"] ∧
    (connectRequest String Unit "h:443" wHeaders [1, 2, 3]).header.get
      "X-Custom" = some ["v1"] := by
  have h := dialNTLM_first_request (B := Unit) wProxy "h:443" wOracle wHeaders [1, 2, 3]
    rfl rfl rfl rfl
  refine ⟨rfl, h.1, ?_, ?_⟩
  · rw [h.2.2.2.2.1]
    decide
  · rw [h.2.2.2.2.2.2 "X-Custom" (by decide) (by decide)]
    decide

/-- C5: in every handshake that reaches the second send, exactly two requests
are written; the second is the first request with its Proxy-Authorization
header replaced by the NTLM scheme followed by the standard base64 encoding
of the Authenticate token returned by Update, and its method, target and
every other header are unchanged from the first request. -/
theorem dialNTLM_second_request {Conn E B : Type} (p : Proxy) (addr : String)
    (o : Oracle Conn E) (m : HeaderMap) (ng auth ch : List Nat) (r1 : Response)
    (v : String)
    (hd : o.dialErr = none)
    (hc : credResult p o = none)
    (hctx : o.newClientContext = Except.ok ng)
    (hh : p.headers = some m)
    (hw1 : o.write1 = none)
    (hr1 : o.read1 = Except.ok r1)
    (hcl : o.close1 = none)
    (h407 : r1.statusCode = 407)
    (hpa : r1.header "Proxy-Authenticate" = some [v])
    (hlen : 6 ≤ v.length)
    (hsw : hasPrefixGo v "NTLM " = true)
    (hdec : base64Decode (v.drop 5) = some ch)
    (hup : o.update = Except.ok auth) :
    ∃ q1 q2 : Request E B,
      writes (dialNTLM p addr o : Outcome Conn E × List (Event E B)).2 = [q1, q2] ∧
      q2.method = q1.method ∧ q2.url = q1.url ∧ q2.host = q1.host ∧
      q2.body = q1.body ∧ q2.getBody = q1.getBody ∧
      q2.header.get "Proxy-Authorization" = some ["NTLM " ++ base64Encode auth] ∧
      ∀ k, k ≠ "Proxy-Authorization" → q2.header.get k = q1.header.get k := by
  have hwr : writes (dialNTLM p addr o : Outcome Conn E × List (Event E B)).2 =
      [connectRequest E B addr m ng,
        { connectRequest E B addr m ng with
          header := (connectRequest E B addr m ng).header.set "Proxy-Authorization"
            ("NTLM " ++ base64Encode auth) }] := by
    cases hw2 : o.write2 with
    | some e =>
      simp [dialNTLM, afterCred, afterCtx, Header.clone, rewindRequest, connectRequest,
        hd, hc, hctx, hh, hw1, hr1, hcl, h407, hpa, hsw, Nat.not_lt.mpr hlen, hdec, hup, hw2]
    | none =>
      cases hr2 : o.read2 with
      | error e =>
        simp [dialNTLM, afterCred, afterCtx, Header.clone, rewindRequest, connectRequest,
          hd, hc, hctx, hh, hw1, hr1, hcl, h407, hpa, hsw, Nat.not_lt.mpr hlen, hdec, hup,
          hw2, hr2]
      | ok r2 =>
        by_cases h200 : r2.statusCode = 200 <;>
          simp [dialNTLM, afterCred, afterCtx, Header.clone, rewindRequest, connectRequest,
            hd, hc, hctx, hh, hw1, hr1, hcl, h407, hpa, hsw, Nat.not_lt.mpr hlen, hdec, hup,
            hw2, hr2, h200]
  refine ⟨_, _, hwr, rfl, rfl, rfl, rfl, rfl, ?_, ?_⟩
  · simp [connectRequest, Header.get, Header.set, HeaderMap.set]
  · intro k hk
    simp [connectRequest, Header.get, Header.set, HeaderMap.set, hk]

/-- Witness for C5 at a concrete successful handshake: the second written
request carries the base64 Authenticate token and keeps the custom header. -/
theorem dialNTLM_second_request_witness :
    wOracle.update = Except.ok [9, 8] ∧
    ((writes ((dialNTLM wProxy "h:443" wOracle :
        Outcome Nat String × List (Event String Unit)).2)).getD 1
      { method := "", url := "", host := "", header := none, body := none,
        getBody := none }).header.get "Proxy-Authorization" = some ["NTLM CQg="] ∧
    ((writes ((dialNTLM wProxy "h:443" wOracle :
        Outcome Nat String × List (Event String Unit)).2)).getD 1
      { method := "", url := "", host := "", header := none, body := none,
        getBody := none }).header.get "X-Custom" =
    ((writes ((dialNTLM wProxy "h:443" wOracle :
        Outcome Nat String × List (Event String Unit)).2)).getD 0
      { method := "", url := "", host := "", header := none, body := none,
        getBody := none }).header.get "X-Custom" := by
  obtain ⟨q1, q2, hwr, hm, hu, hh2, hb, hg, hpa2, hrest⟩ :=
    dialNTLM_second_request (B := Unit) wProxy "h:443" wOracle wHeaders
      [1, 2, 3] [9, 8] [77, 97, 110] wResp1 "NTLM TWFu"
      rfl rfl rfl rfl rfl rfl rfl (by decide) (by decide) (by decide) (by decide)
      (by decide) rfl
  refine ⟨rfl, ?_, ?_⟩
  · rw [hwr]
    simpa using hpa2
  · rw [hwr]
    simpa using hrest "X-Custom" (by decide)

/-- C6: for every valid single Proxy-Authenticate value, the byte string
passed to Update is exactly the standard base64 decoding of the portion of
the value after the five-character NTLM scheme; and when that portion is not
valid base64, dialNTLM fails with the decode error and Update is never
invoked. -/
theorem dialNTLM_challenge_decode {Conn E B : Type} (p : Proxy) (addr : String)
    (o : Oracle Conn E) (m : HeaderMap) (ng : List Nat) (r1 : Response) (v : String)
    (hd : o.dialErr = none)
    (hc : credResult p o = none)
    (hctx : o.newClientContext = Except.ok ng)
    (hh : p.headers = some m)
    (hw1 : o.write1 = none)
    (hr1 : o.read1 = Except.ok r1)
    (hcl : o.close1 = none)
    (h407 : r1.statusCode = 407)
    (hpa : r1.header "Proxy-Authenticate" = some [v])
    (hlen : 6 ≤ v.length)
    (hsw : hasPrefixGo v "NTLM " = true) :
    (∀ ch, base64Decode (v.drop 5) = some ch →
      updates (dialNTLM p addr o : Outcome Conn E × List (Event E B)).2 = [ch]) ∧
    (base64Decode (v.drop 5) = none →
      (dialNTLM p addr o : Outcome Conn E × List (Event E B)).1 =
        Outcome.ret o.dialConn (some DialError.corruptInput) ∧
      updates (dialNTLM p addr o : Outcome Conn E × List (Event E B)).2 = []) := by
  constructor
  · intro ch hdec
    cases hup : o.update with
    | error e =>
      simp [dialNTLM, afterCred, afterCtx, Header.clone, rewindRequest, connectRequest,
        hd, hc, hctx, hh, hw1, hr1, hcl, h407, hpa, hsw, Nat.not_lt.mpr hlen, hdec, hup]
    | ok auth =>
      cases hw2 : o.write2 with
      | some e =>
        simp [dialNTLM, afterCred, afterCtx, Header.clone, rewindRequest, connectRequest,
          hd, hc, hctx, hh, hw1, hr1, hcl, h407, hpa, hsw, Nat.not_lt.mpr hlen, hdec, hup,
          hw2]
      | none =>
        cases hr2 : o.read2 with
        | error e =>
          simp [dialNTLM, afterCred, afterCtx, Header.clone, rewindRequest, connectRequest,
            hd, hc, hctx, hh, hw1, hr1, hcl, h407, hpa, hsw, Nat.not_lt.mpr hlen, hdec, hup,
            hw2, hr2]
        | ok r2 =>
          by_cases h200 : r2.statusCode = 200 <;>
            simp [dialNTLM, afterCred, afterCtx, Header.clone, rewindRequest,
              connectRequest, hd, hc, hctx, hh, hw1, hr1, hcl, h407, hpa, hsw,
              Nat.not_lt.mpr hlen, hdec, hup, hw2, hr2, h200]
  · intro hdec
    constructor <;>
      simp [dialNTLM, afterCred, afterCtx, Header.clone, hd, hc, hctx, hh, hw1, hr1, hcl,
        h407, hpa, hsw, Nat.not_lt.mpr hlen, hdec]

/-- Witness for C6 at a concrete handshake whose challenge value decodes. -/
theorem dialNTLM_challenge_decode_witness :
    base64Decode ("NTLM TWFu".drop 5) = some [77, 97, 110] ∧
    updates ((dialNTLM wProxy "h:443" wOracle :
      Outcome Nat String × List (Event String Unit)).2) = [[77, 97, 110]] := by
  have h := dialNTLM_challenge_decode (B := Unit) wProxy "h:443" wOracle wHeaders
    [1, 2, 3] wResp1 "NTLM TWFu"
    rfl rfl rfl rfl rfl rfl rfl (by decide) (by decide) (by decide) (by decide)
  exact ⟨by decide, h.1 [77, 97, 110] (by decide)⟩

/-- The body of the handshake emits no credential release event itself. -/
theorem afterCtx_countReleaseCred {Conn E B : Type} (p : Proxy) (addr : String)
    (conn : Conn) (ng : List Nat) (o : Oracle Conn E) :
    countReleaseCred ((afterCtx p addr conn ng o : Outcome Conn E × List (Event E B)).2) =
      0 := by
  simp only [afterCtx]
  repeat' split
  all_goals simp

/-- The body of the handshake emits no context release event itself. -/
theorem afterCtx_countReleaseCtx {Conn E B : Type} (p : Proxy) (addr : String)
    (conn : Conn) (ng : List Nat) (o : Oracle Conn E) :
    countReleaseCtx ((afterCtx p addr conn ng o : Outcome Conn E × List (Event E B)).2) =
      0 := by
  simp only [afterCtx]
  repeat' split
  all_goals simp

/-- C7: on every path of every invocation, a credential that was successfully
acquired is released exactly once and a security context that was
successfully created is released exactly once, and a handle whose
acquisition failed is never released. -/
theorem dialNTLM_release_once {Conn E B : Type} (p : Proxy) (addr : String)
    (o : Oracle Conn E) :
    countReleaseCred ((dialNTLM p addr o : Outcome Conn E × List (Event E B)).2) =
      (if o.dialErr.isNone = true ∧ (credResult p o).isNone = true then 1 else 0) ∧
    countReleaseCtx ((dialNTLM p addr o : Outcome Conn E × List (Event E B)).2) =
      (if o.dialErr.isNone = true ∧ (credResult p o).isNone = true ∧
          o.newClientContext.toOption.isSome = true then 1 else 0) := by
  cases hd : o.dialErr with
  | some e => simp [dialNTLM, hd]
  | none =>
    cases hc : credResult p o with
    | some e => simp [dialNTLM, hd, hc]
    | none =>
      cases hctx : o.newClientContext with
      | error e => simp [dialNTLM, afterCred, hd, hc, hctx, Except.toOption]
      | ok ng =>
        simp [dialNTLM, afterCred, hd, hc, hctx, Except.toOption,
          afterCtx_countReleaseCred (B := B) p addr o.dialConn ng o,
          afterCtx_countReleaseCtx (B := B) p addr o.dialConn ng o]

/-- Whether an outcome is a normal return of the given connection (a panic
imposes no constraint, since nothing is returned). -/
def retConnEq {Conn E : Type} (out : Outcome Conn E) (c : Conn) : Prop :=
  match out with
  | Outcome.ret c2 _ => c2 = c
  | Outcome.panicked _ => True

/-- Every normal return of the handshake body hands back the dialed
connection. -/
theorem afterCtx_retConn {Conn E B : Type} (p : Proxy) (addr : String) (conn : Conn)
    (ng : List Nat) (o : Oracle Conn E) :
    retConnEq ((afterCtx p addr conn ng o : Outcome Conn E × List (Event E B)).1) conn := by
  simp only [afterCtx]
  repeat' split
  all_goals simp [retConnEq]

/-- C8: on every return path, success or failure, dialNTLM returns the very
connection the dial function produced, and when the dial itself fails the
connection value and the error are passed through unchanged. -/
theorem dialNTLM_conn_passthrough {Conn E B : Type} (p : Proxy) (addr : String)
    (o : Oracle Conn E) :
    retConnEq ((dialNTLM p addr o : Outcome Conn E × List (Event E B)).1) o.dialConn ∧
    ∀ e, o.dialErr = some e →
      (dialNTLM p addr o : Outcome Conn E × List (Event E B)).1 =
        Outcome.ret o.dialConn (some (DialError.ext e)) := by
  constructor
  · cases hd : o.dialErr with
    | some e => simp [dialNTLM, hd, retConnEq]
    | none =>
      cases hc : credResult p o with
      | some e => simp [dialNTLM, hd, hc, retConnEq]
      | none =>
        cases hctx : o.newClientContext with
        | error e => simp [dialNTLM, afterCred, hd, hc, hctx, retConnEq]
        | ok ng =>
          have h := afterCtx_retConn (B := B) p addr o.dialConn ng o
          simpa [dialNTLM, afterCred, hd, hc, hctx] using h
  · intro e he
    simp [dialNTLM, he]

/-- An oracle whose dial fails with a connection value and an error. -/
def oDialFail : Oracle Nat String :=
  { wOracle with dialConn := 3, dialErr := some "connection refused" }

/-- Witness for C8 at a concrete failing dial: the connection and the error
of the dial function are handed back unchanged. -/
theorem dialNTLM_conn_passthrough_witness :
    oDialFail.dialErr = some "connection refused" ∧
    (dialNTLM wProxy "t" oDialFail : Outcome Nat String × List (Event String Unit)).1 =
      Outcome.ret 3 (some (DialError.ext "connection refused")) := by
  exact ⟨rfl,
    (dialNTLM_conn_passthrough (B := Unit) wProxy "t" oDialFail).2 "connection refused" rfl⟩

/-- C9: the replay step executed before the second send (rewindRequest, used
by afterCtx): when the request has a re-obtain-body capability, a fresh body
is obtained from it and installed on the request, replacing the body used by
the first send, and a failure of the re-obtain is returned as a fatal error
for the attempt. -/
theorem rewindRequest_refresh {E B : Type} (r : Request E B)
    (f : Unit → Except E B) (hf : r.getBody = some f) :
    (∀ b, f () = Except.ok b →
      rewindRequest r = Except.ok { r with body := some b }) ∧
    (∀ e, f () = Except.error e → rewindRequest r = Except.error e) := by
  constructor <;> intro x hx <;> simp [rewindRequest, hf, hx]

/-- A request carrying an exhausted body together with a re-obtain-body
capability that produces the fresh body 1. -/
def wReq : Request String Nat :=
  { method := "CONNECT", url := "t", host := "t", header := some wHeaders,
    body := some 0, getBody := some (fun _ => Except.ok 1) }

/-- Witness for C9 at a concrete request whose capability produces a fresh
body distinct from the exhausted one. -/
theorem rewindRequest_refresh_witness :
    wReq.getBody = some (fun _ => Except.ok 1) ∧
    rewindRequest wReq = Except.ok { wReq with body := some 1 } := by
  exact ⟨rfl, (rewindRequest_refresh wReq (fun _ => Except.ok 1) rfl).1 1 rfl⟩

/-- C10: when dial, credential acquisition and context creation succeed but
the configured header map is nil, dialNTLM panics (cloning the nil map yields
nil and the first Set writes to a nil map) instead of returning an error. -/
theorem dialNTLM_nil_headers_panics {Conn E B : Type} (p : Proxy) (addr : String)
    (o : Oracle Conn E) (ng : List Nat)
    (hd : o.dialErr = none)
    (hc : credResult p o = none)
    (hctx : o.newClientContext = Except.ok ng)
    (hh : p.headers = none) :
    (dialNTLM p addr o : Outcome Conn E × List (Event E B)).1 =
      Outcome.panicked "assignment to entry in nil map" := by
  simp [dialNTLM, afterCred, afterCtx, Header.clone, hd, hc, hctx, hh]

/-- A proxy configuration with no credentials and a nil header map. -/
def wProxyNil : Proxy := { domain := "", username := "", password := "", headers := none }

/-- Witness for C10 at a concrete configuration whose header map is nil. -/
theorem dialNTLM_nil_headers_panics_witness :
    wProxyNil.headers = none ∧ wOracle.dialErr = none ∧
    (dialNTLM wProxyNil "t" wOracle : Outcome Nat String × List (Event String Unit)).1 =
      Outcome.panicked "assignment to entry in nil map" := by
  exact ⟨rfl, rfl,
    dialNTLM_nil_headers_panics (B := Unit) wProxyNil "t" wOracle [1, 2, 3]
      rfl rfl rfl rfl⟩

end ProxyPlease
